import Mathlib

/-!
# Verification of the Photo Store payment processor

Shallow embedding of `server.js` (Express API: catalog, `/api/orders`,
`/api/payment`, `/api/config`, `/api/health`) and of the frontend checkout
controller (`src/unnamed/part_000`: cart operations, Square widget
initialization state, `processPayment`, `showSuccess`).

Money amounts and quantities are integers (minor currency units); a
JavaScript number that is gated by `Number.isInteger` before use is
modelled by `JsNum`, which is either an integer or a symbolic non-integer
fraction on which the code never computes. Strings are Lean `String`s;
absent JSON fields are `Option`s; JS truthiness of a string is "≠ empty
string" and of a number is "≠ 0". String processing is done on `String.toList`
character lists (the core `String` functions do not reduce in the kernel).
-/

deriving instance DecidableEq for Except

/-- A JavaScript number as it arrives in a JSON body at a place where the
code applies `Number.isInteger` before using it: either an integer-valued
number, or a non-integer `num / den` (`den ≥ 2`, `den` not dividing `num`)
on which the program never computes — every code path first rejects it. -/
inductive JsNum where
  | int (z : ℤ)
  | nonInt (num : ℤ) (den : ℕ)
deriving DecidableEq, Repr

namespace JsNum

/-- `Number.isInteger`. -/
def isInteger : JsNum → Bool
  | .int _ => true
  | .nonInt _ _ => false

/-- JS truthiness of a number: only `0` (an integer) is falsy. -/
def truthy : JsNum → Bool
  | .int z => z ≠ 0
  | .nonInt _ _ => true

/-- The value of an integer-valued JS number. Every use in the embedding is
guarded by `isInteger`, mirroring the source, where the corresponding
arithmetic runs only after a `Number.isInteger` check has passed; the `0`
for a non-integer is unreachable. -/
def intVal : JsNum → ℤ
  | .int z => z
  | .nonInt _ _ => 0

end JsNum

namespace Server

/-- A catalog product, from the `products` array in `server.js`.
`price` is in integer minor units (cents). -/
structure Product where
  id : String
  name : String
  description : String
  price : ℤ
  image : String
deriving DecidableEq, Repr

/-- The static catalog from `server.js` lines 33-76. -/
def products : List Product :=
  [ ⟨"photo-1", "Mountain Sunset", "Beautiful sunset over mountain peaks", 2999, "/tiny/tiny1.webp"⟩,
    ⟨"photo-2", "Ocean Waves", "Serene ocean waves at dawn", 3499, "/tiny/tiny2.webp"⟩,
    ⟨"photo-3", "Forest Path", "Mystical forest path in autumn", 2499, "/tiny/tiny3.webp"⟩,
    ⟨"photo-4", "City Lights", "Urban cityscape at night", 3999, "/tiny/tiny4.webp"⟩,
    ⟨"photo-5", "Desert Dunes", "Golden sand dunes at sunset", 2799, "/tiny/tiny5.webp"⟩,
    ⟨"photo-6", "Northern Lights", "Aurora borealis over snowy landscape", 4999, "/tiny/tiny6.webp"⟩ ]

/-- Catalog lookup (`products.find(p => p.id === id)`), projected to the price. -/
def catalogPrice (pid : String) : Option ℤ :=
  (products.find? (fun p => p.id = pid)).map Product.price

/-- One element of the `items` array of a `POST /api/orders` body.
`clientPrice` models a client-supplied `price` field that may be present in
the JSON but is never read by the handler. An absent `id` and an `id : ""`
are JS-falsy alike, so `id` is a plain string with `""` for "missing". -/
structure ReqItem where
  id : String
  quantity : JsNum
  clientPrice : Option ℤ
deriving DecidableEq, Repr

/-- Characters allowed in the local part of the server's email regex
(`server.js` line 198): alphanumerics plus the listed specials
(`.!#$%&'*+/=?^_`, backtick, braces, `|~-`). -/
def localSpecials : List Char :=
  ['.', '!', '#', '$', '%', '&', Char.ofNat 39, '*', '+', '/', '=', '?', '^',
   '_', Char.ofNat 96, Char.ofNat 123, '|', Char.ofNat 125, '~', '-']

/-- Membership in the local-part character class of the email regex. -/
def isLocalChar (c : Char) : Bool :=
  c.isAlphanum || localSpecials.contains c

/-- Split a character list at every occurrence of `sep` (the separators are
dropped); always returns at least one (possibly empty) piece. -/
def splitOnChar (sep : Char) : List Char → List (List Char)
  | [] => [[]]
  | c :: cs =>
    let r := splitOnChar sep cs
    if c = sep then [] :: r else (c :: r.headD []) :: r.tail

/-- One DNS label as matched by
`[a-zA-Z0-9](?:[a-zA-Z0-9-]{0,61}[a-zA-Z0-9])?`: length 1 to 63,
alphanumeric at both ends, alphanumeric or hyphen in between. -/
def validLabel (cs : List Char) : Bool :=
  match cs with
  | [] => false
  | c :: rest =>
    match rest.getLast? with
    | none => c.isAlphanum
    | some lastc =>
      c.isAlphanum && lastc.isAlphanum && cs.length ≤ 63 &&
        (rest.dropLast.all fun m => m.isAlphanum || m = '-')

/-- The server's email regex test (`server.js` line 198): a nonempty local
part over `isLocalChar`, one `@`, and a dot-separated sequence of valid
labels. -/
def emailRegexTest (s : String) : Bool :=
  match splitOnChar '@' s.toList with
  | [lp, dom] =>
    !lp.isEmpty && lp.all isLocalChar && (splitOnChar '.' dom).all validLabel
  | _ => false

/-- The per-item validation loop of `POST /api/orders` (`server.js`
lines 181-192): returns the first error message, or `none` when all items
pass.  The structure check `!item.id || !item.quantity` is JS truthiness. -/
def validateItems : List ReqItem → Option String
  | [] => none
  | item :: rest =>
    if item.id = "" ∨ item.quantity.truthy = false then
      some "Invalid item structure: id and quantity required"
    else if ¬ (item.quantity.isInteger = true ∧ 0 < item.quantity.intVal) then
      some "Invalid quantity: must be a positive integer"
    else
      match products.find? (fun p => p.id = item.id) with
      | none => some ("Product not found: " ++ item.id)
      | some _ => validateItems rest

/-- The email gate of `POST /api/orders` (`server.js` lines 197-202):
validated only when `customerEmail` is truthy. Returns an error message or
`none`. -/
def validateEmail : Option String → Option String
  | none => none
  | some e =>
    if e = "" then none
    else if emailRegexTest e = false ∨ e.toList.length > 254 then
      some "Invalid email address format"
    else none

/-- The successful `POST /api/orders` response body (the `orderId` and
`createdAt` fields are produced by `randomUUID()`/the clock and are not
modelled; nothing below depends on them). -/
structure OrderOut where
  items : List ReqItem
  total : ℤ
  customerEmail : Option String
deriving DecidableEq, Repr

/-- The total computation of `POST /api/orders` (`server.js` lines 205-208):
a reduce over the items with catalog lookup, contributing 0 for an unknown
id. -/
def orderTotal (items : List ReqItem) : ℤ :=
  items.foldl
    (fun sum item => sum + ((catalogPrice item.id).getD 0) * item.quantity.intVal) 0

/-- The `POST /api/orders` handler (`server.js` lines 173-219). `.error msg`
is a 400 response `{error: msg}`; `.ok` is the 200 response. `items?` is
`none` when the body has no `items` field. -/
def processOrder (items? : Option (List ReqItem)) (customerEmail : Option String) :
    Except String OrderOut :=
  match items? with
  | none => .error "No items in order"
  | some items =>
    if items.length = 0 then .error "No items in order"
    else
      match validateItems items with
      | some e => .error e
      | none =>
        match validateEmail customerEmail with
        | some e => .error e
        | none => .ok ⟨items, orderTotal items, customerEmail⟩

/-- Whether a handler result is a 400 `{error}` response. -/
def isErr {α : Type} : Except String α → Bool
  | .error _ => true
  | .ok _ => false

/-- Modelled from the spec's words, for comparison with `orderTotal`:
"total = Σ(catalog price(productId) × quantity) using only server-trusted
catalog prices". -/
def specOrderTotal (items : List ReqItem) : ℤ :=
  (items.map fun it => ((catalogPrice it.id).getD 0) * it.quantity.intVal).sum

/-- The claim's email-rejection condition: an email was supplied (truthy)
and fails the grammar or exceeds 254 characters. -/
def emailRejected : Option String → Bool
  | none => false
  | some e =>
    decide (e ≠ "") && (!emailRegexTest e || decide (254 < e.toList.length))

/-- All checks of the item-validation loop for a single item: truthy id and
quantity, positive integer quantity, id resolving in the catalog. -/
def itemOk (it : ReqItem) : Prop :=
  it.id ≠ "" ∧ it.quantity.truthy = true ∧ it.quantity.isInteger = true ∧
    0 < it.quantity.intVal ∧ (catalogPrice it.id).isSome = true

instance (it : ReqItem) : Decidable (itemOk it) := by
  unfold itemOk; infer_instance

/-- The environment variables the server reads; `""` stands for an unset
variable (both are JS-falsy through `process.env`). -/
structure Env where
  accessToken : String
  applicationId : String
  locationId : String
deriving DecidableEq, Repr

/-- `squareConfigured` as computed by `GET /api/config` (`server.js`
lines 82-84): all three credentials present. -/
def configSquareConfigured (e : Env) : Bool :=
  e.accessToken ≠ "" && e.applicationId ≠ "" && e.locationId ≠ ""

/-- `squareConfigured` as computed by `GET /api/health` (`server.js`
line 225): only the access token and location id. -/
def healthSquareConfigured (e : Env) : Bool :=
  e.accessToken ≠ "" && e.locationId ≠ ""

/-- The `GET /api/config` response body. -/
structure ConfigOut where
  squareApplicationId : String
  squareLocationId : String
  squareConfigured : Bool
deriving DecidableEq, Repr

/-- The `GET /api/config` handler (`server.js` lines 81-91). -/
def configHandler (e : Env) : ConfigOut :=
  ⟨e.applicationId, e.locationId, configSquareConfigured e⟩

/-- Body of `POST /api/payment`; every field can be absent. -/
structure PaymentBody where
  sourceId : Option String
  amount : Option JsNum
  currency : Option String
  orderId : Option String
deriving DecidableEq, Repr

/-- The request the handler would forward to `squareClient.paymentsApi.createPayment`.
The idempotency key is freshly random and not modelled. -/
structure SquareReq where
  sourceId : String
  amount : ℤ
  currency : String
  locationId : String
  note : String
deriving DecidableEq, Repr

/-- Outcome of the `POST /api/payment` handler before/at the network
boundary: a 400 validation response, a 500 configuration response, or the
outbound call to the external processor. -/
inductive PaymentHandlerOutcome where
  | badRequest (msg : String)
  | configError (msg : String)
  | callSquare (req : SquareReq)
deriving DecidableEq, Repr

/-- Whether the handler answered 400 before reaching the network. -/
def PaymentHandlerOutcome.isBadRequest : PaymentHandlerOutcome → Bool
  | .badRequest _ => true
  | _ => false

/-- The currency regex `^[A-Z]{3}$` (`server.js` line 122). -/
def currencyOk (c : String) : Bool :=
  c.toList.length = 3 && c.toList.all (fun ch => 'A' ≤ ch && ch ≤ 'Z')

/-- The validation prefix of the `POST /api/payment` handler (`server.js`
lines 109-141), up to the outbound call. `currency` defaults to `"USD"`
only when absent (JS destructuring default). -/
def paymentHandler (e : Env) (b : PaymentBody) : PaymentHandlerOutcome :=
  let currency := b.currency.getD "USD"
  let a := b.amount.getD (.int 0)
  if b.sourceId.getD "" = "" ∨ a.truthy = false then
    .badRequest "Missing required payment information"
  else if ¬ (a.isInteger = true ∧ 0 < a.intVal) then
    .badRequest "Invalid amount: must be a positive integer in cents"
  else if currencyOk currency = false then
    .badRequest "Invalid currency: must be a 3-letter code (e.g., USD)"
  else if e.locationId = "" then
    .configError "Square payment system is not configured"
  else
    .callSquare ⟨b.sourceId.getD "", a.intVal, currency, e.locationId,
      "Photo Store Order: " ++
        (if b.orderId.getD "" = "" then "N/A" else b.orderId.getD "")⟩

end Server

namespace Frontend

/-- One cart line: the snapshot of a product (`{...product, quantity: 1}`)
restricted to the fields the cart logic reads (`id`, `price`, `quantity`);
the display-only snapshot fields (name, description, image) are omitted.
`quantity` is an integer: every call site passes `±1` deltas. -/
structure CartLine where
  id : String
  price : ℤ
  quantity : ℤ
deriving DecidableEq, Repr

/-- `existingItem.quantity++` on the first line matching the id. -/
def incFirstQuantity : List CartLine → String → List CartLine
  | [], _ => []
  | l :: ls, productId =>
    if l.id = productId then { l with quantity := l.quantity + 1 } :: ls
    else l :: incFirstQuantity ls productId

/-- Set the quantity of the first line matching the id. -/
def setFirstQuantity : List CartLine → String → ℤ → List CartLine
  | [], _, _ => []
  | l :: ls, productId, q =>
    if l.id = productId then { l with quantity := q } :: ls
    else l :: setFirstQuantity ls productId q

/-- `addToCart` (frontend lines 85-98): no-op on an unknown product id;
otherwise increments an existing line or appends a fresh line with
quantity 1. `prods` is the product list loaded from `GET /api/products`. -/
def addToCart (prods : List Server.Product) (cart : List CartLine)
    (productId : String) : List CartLine :=
  match prods.find? (fun p => p.id = productId) with
  | none => cart
  | some p =>
    if cart.any (fun l => l.id = productId) then incFirstQuantity cart productId
    else cart ++ [⟨productId, p.price, 1⟩]

/-- `removeFromCart` (frontend lines 100-104): keeps the lines whose id
differs. -/
def removeFromCart (cart : List CartLine) (productId : String) : List CartLine :=
  cart.filter (fun l => l.id ≠ productId)

/-- `updateQuantity` (frontend lines 106-117): adds `change` to the matching
line's quantity; if the result is ≤ 0 the line is removed. No-op when no
line matches. -/
def updateQuantity (cart : List CartLine) (productId : String) (change : ℤ) :
    List CartLine :=
  match cart.find? (fun l => l.id = productId) with
  | none => cart
  | some item =>
    if item.quantity + change ≤ 0 then removeFromCart cart productId
    else setFirstQuantity cart productId (item.quantity + change)

/-- `calculateTotal` (frontend lines 124-126): reduce of price × quantity
with initial value 0. -/
def calculateTotal (cart : List CartLine) : ℤ :=
  cart.foldl (fun sum l => sum + l.price * l.quantity) 0

/-- The cart operations a user can trigger from the UI. -/
inductive CartOp where
  | add (productId : String)
  | remove (productId : String)
  | setQuantity (productId : String) (change : ℤ)
deriving DecidableEq, Repr

/-- Apply one cart operation. -/
def applyOp (prods : List Server.Product) (cart : List CartLine) :
    CartOp → List CartLine
  | .add productId => addToCart prods cart productId
  | .remove productId => removeFromCart cart productId
  | .setQuantity productId change => updateQuantity cart productId change

/-- Run a sequence of cart operations from the empty cart. -/
def runOps (prods : List Server.Product) (ops : List CartOp) : List CartLine :=
  ops.foldl (applyOp prods) []

/-! ## Square payment-widget initialization (frontend lines 10-41, 191-213, 257-266) -/

/-- `MAX_CARD_INIT_ATTEMPTS` (frontend line 11). -/
def MAX_CARD_INIT_ATTEMPTS : ℕ := 3

/-- Status of the `card` module variable: `null`, set but not attached
(`squarePayments.card()` succeeded, `attach` threw), or attached. -/
inductive CardSt where
  | noCard
  | unattached
  | attached
deriving DecidableEq, Repr

/-- The module-level widget state: `cardInitAttempts`, `card`,
whether `squarePayments` is set (`sp`), whether `Square.payments(...)` was
ever invoked (`ctorCalled`), and how many times `initializeCard` ran
(`initCalls`, a ghost counter for the attempt bound). -/
structure WidgetState where
  cardInitAttempts : ℕ
  card : CardSt
  sp : Bool
  ctorCalled : Bool
  initCalls : ℕ
deriving DecidableEq, Repr

/-- Outcome of one `initializeCard` body: both awaits succeed,
`squarePayments.card()` throws, or `card.attach` throws. -/
inductive InitOutcome where
  | success
  | createFail
  | attachFail
deriving DecidableEq, Repr

/-- `initializeCard` (frontend lines 257-266): increments the attempt
counter, then either attaches the card or shows an error (second component
`true` when `showError` ran). If `squarePayments.card()` throws, `card`
keeps its previous value; if `attach` throws, `card` is set but
unattached. -/
def initializeCard (s : WidgetState) (o : InitOutcome) : WidgetState × Bool :=
  let s :=
    { s with cardInitAttempts := s.cardInitAttempts + 1, initCalls := s.initCalls + 1 }
  match o with
  | .success => ({ s with card := .attached }, false)
  | .createFail => (s, true)
  | .attachFail => ({ s with card := .unattached }, true)

/-- `init` (frontend lines 14-41), restricted to the widget-relevant part:
SDK presence check, config gate, `Square.payments` construction and the
first `initializeCard`. Returns the resulting widget state and the error
message `showError` displayed, if any. `ctorOk = false` models
`Square.payments` throwing (caught; only logged). -/
def initApp (cfg : Server.ConfigOut) (sdkLoaded : Bool) (ctorOk : Bool)
    (o : InitOutcome) : WidgetState × Option String :=
  let base : WidgetState := ⟨0, .noCard, false, false, 0⟩
  if sdkLoaded = false then
    (base, some "Payment system is currently unavailable. Please try again later.")
  else if cfg.squareConfigured then
    if cfg.squareApplicationId = "" ∨ cfg.squareLocationId = "" then
      (base, some "Payment system is not properly configured. Please contact support.")
    else if ctorOk = false then
      ({ base with ctorCalled := true }, none)
    else
      let s := { base with ctorCalled := true, sp := true }
      let r := initializeCard s o
      (r.1,
        if r.2 then
          some "Payment form initialization failed. Please check your Square configuration."
        else none)
  else
    (base, none)

/-- The widget part of `showCheckout` (frontend lines 191-213): initialize
the card if absent and under the attempt bound; otherwise try to reattach,
falling back to one more bounded initialization. Returns the new state and
the error message shown, if any. -/
def showCheckout (s : WidgetState) (o : InitOutcome) (reattachOk : Bool) :
    WidgetState × Option String :=
  if s.sp = true ∧ s.card = .noCard then
    if s.cardInitAttempts < MAX_CARD_INIT_ATTEMPTS then
      let r := initializeCard s o
      (r.1,
        if r.2 then
          some "Payment form initialization failed. Please check your Square configuration."
        else none)
    else
      (s, some "Unable to initialize payment form. Please refresh the page and try again.")
  else if s.card ≠ .noCard then
    if reattachOk then ({ s with card := .attached }, none)
    else if s.cardInitAttempts < MAX_CARD_INIT_ATTEMPTS then
      let r := initializeCard { s with card := .noCard } o
      (r.1,
        if r.2 then
          some "Payment form initialization failed. Please check your Square configuration."
        else none)
    else
      (s, some "Unable to initialize payment form. Please refresh the page and try again.")
  else (s, none)

/-- Fold a sequence of checkout-entry events (each with its initialization
and reattach outcomes) over the widget state. -/
def runCheckouts (s : WidgetState) (evs : List (InitOutcome × Bool)) : WidgetState :=
  evs.foldl (fun st ev => (showCheckout st ev.1 ev.2).1) s

/-! ## `processPayment` (frontend lines 269-334) -/

/-- Result of a `fetch`: the promise rejects (network error, carrying the
message) or resolves with a parsed JSON body. The frontend never inspects
`response.ok` or the status code. -/
inductive Fetch (α : Type) where
  | netError (msg : String)
  | respond (body : α)
deriving DecidableEq, Repr

/-- The parsed body of the `POST /api/orders` response as the client reads
it: `total` and `orderId` are absent on a 400 `{error}` body. `httpOk`
records whether the HTTP status was a success; the client never reads it. -/
structure OrderResponse where
  httpOk : Bool
  total : Option ℤ
  orderId : Option String
deriving DecidableEq, Repr

/-- The parsed body of the `POST /api/payment` response as the client reads
it. -/
structure PaymentResponse where
  success : Bool
  errMsg : Option String
  receiptUrl : Option String
deriving DecidableEq, Repr

/-- `card.tokenize()` outcome: `status === 'OK'` with a token, or anything
else. -/
inductive TokenizeResult where
  | ok (token : String)
  | notOk
deriving DecidableEq, Repr

/-- One item of the order-request body `cart.map(item => ({id, quantity}))`. -/
structure OrderItemSent where
  id : String
  quantity : ℤ
deriving DecidableEq, Repr

/-- The body sent to `POST /api/payment`: `amount` is `order.total` and is
absent (dropped by `JSON.stringify`) when that field was `undefined`. -/
structure SubmittedPayment where
  sourceId : String
  amount : Option ℤ
  orderId : Option String
deriving DecidableEq, Repr

/-- Where `processPayment` ends: the success view (with the order id and
receipt URL passed to `showSuccess`), or an inline error in the checkout
view. -/
inductive PPOutcome where
  | success (orderId : Option String) (receiptUrl : Option String)
  | errorShown (msg : String)
deriving DecidableEq, Repr

/-- Observable trace of one `processPayment` run: the order-request body if
the order fetch was issued, whether `card.tokenize()` was called, the
payment-request body if that fetch was issued, the final outcome, and
whether the submit button is enabled at the end (the `finally` block always
re-enables it; the early returns never disabled it). -/
structure PPResult where
  orderRequest : Option (List OrderItemSent)
  tokenizeCalled : Bool
  paymentRequest : Option SubmittedPayment
  outcome : PPOutcome
  submitEnabledAtEnd : Bool
deriving DecidableEq, Repr

/-- The client-side email regex of `processPayment` (frontend line 281),
`^[^\s@]+@[^\s@]+\.[^\s@]+$`: one `@`, nonempty whitespace-free local part,
and a domain part containing a dot with nonempty text on both sides. -/
def clientEmailOk (s : String) : Bool :=
  match Server.splitOnChar '@' s.toList with
  | [lp, dom] =>
    !lp.isEmpty && lp.all (fun c => !c.isWhitespace) &&
      dom.all (fun c => !c.isWhitespace) &&
      (let parts := Server.splitOnChar '.' dom
       decide (2 ≤ parts.length) && !(parts.headD []).isEmpty &&
         !(parts.getLastD []).isEmpty)
  | _ => false

/-- `processPayment` (frontend lines 269-334), as a function of the form
email, the cart, and the outcomes of the three asynchronous steps. The
order response is used whether or not its HTTP status was a success, since
the code never checks `orderResponse.ok`. -/
def processPayment (customerEmail : String) (cart : List CartLine)
    (orderFetch : Fetch OrderResponse) (tokenize : TokenizeResult)
    (paymentFetch : Fetch PaymentResponse) : PPResult :=
  if customerEmail = "" then
    ⟨none, false, none, .errorShown "Please enter your email address", true⟩
  else if clientEmailOk customerEmail = false then
    ⟨none, false, none, .errorShown "Please enter a valid email address", true⟩
  else
    let itemsSent := cart.map (fun l => OrderItemSent.mk l.id l.quantity)
    match orderFetch with
    | .netError m =>
      ⟨some itemsSent, false, none, .errorShown ("Payment failed: " ++ m), true⟩
    | .respond order =>
      match tokenize with
      | .ok token =>
        let req : SubmittedPayment := ⟨token, order.total, order.orderId⟩
        match paymentFetch with
        | .netError m =>
          ⟨some itemsSent, true, some req, .errorShown ("Payment failed: " ++ m), true⟩
        | .respond p =>
          if p.success then
            ⟨some itemsSent, true, some req, .success order.orderId p.receiptUrl, true⟩
          else
            ⟨some itemsSent, true, some req,
              .errorShown ("Payment failed: " ++ p.errMsg.getD "Payment failed"), true⟩
      | .notOk =>
        ⟨some itemsSent, true, none,
          .errorShown "Payment failed: Card tokenization failed", true⟩

/-! ## `showSuccess` (frontend lines 215-247) -/

/-- The parts of a parsed URL that `showSuccess` reads, as produced by the
browser's `new URL` constructor. -/
structure URLParts where
  protocol : String
  hostname : String
deriving DecidableEq, Repr

/-- The hostname test of `showSuccess` (frontend lines 225-229), applied to
the lowercased hostname (as a character list). -/
def isValidSquareDomain (hostname : List Char) : Bool :=
  hostname = "squareup.com".toList || hostname = "squareupsandbox.com".toList ||
    ".squareup.com".toList.isSuffixOf hostname ||
    ".squareupsandbox.com".toList.isSuffixOf hostname

/-- What the success view displays. -/
structure SuccessView where
  orderIdShown : Option String
  receiptLinkShown : Bool
deriving DecidableEq, Repr

/-- `showSuccess` (frontend lines 215-247): renders the order id, renders a
receipt link only for a parseable http/https URL on a Square domain, and
unconditionally clears the cart. `parseURL` stands for the browser's
`new URL`, with `none` for a thrown `TypeError`. Returns the new cart and
the view. -/
def showSuccess (cart : List CartLine) (orderId : Option String)
    (receiptUrl : Option String) (parseURL : String → Option URLParts) :
    List CartLine × SuccessView :=
  let link :=
    match receiptUrl with
    | none => false
    | some u =>
      if u = "" then false
      else
        match parseURL u with
        | none => false
        | some parts =>
          let hostname := parts.hostname.toList.map Char.toLower
          isValidSquareDomain hostname &&
            (parts.protocol = "https:" || parts.protocol = "http:")
  ([], ⟨orderId, link⟩)

/-- A concrete stand-in for the browser's `new URL` used to instantiate
theorems about `showSuccess` at specific receipt URLs: it parses exactly
one https Square URL and rejects everything else. -/
def sampleParseURL (s : String) : Option URLParts :=
  if s = "https://squareup.com/receipt/abc" then some ⟨"https:", "squareup.com"⟩
  else none

end Frontend

/-! ## Verified properties -/

/-- A JS number with a positive integer value is truthy. -/
theorem JsNum.truthy_of_pos {a : JsNum} (h : 0 < a.intVal) :
    a.truthy = true := by
  cases a with
  | int z =>
    simp only [JsNum.intVal] at h
    simp [JsNum.truthy]
    omega
  | nonInt n d => rfl

/-- C10: `GET /api/health` computes `squareConfigured` from only
`SQUARE_ACCESS_TOKEN` and `SQUARE_LOCATION_ID`, while `GET /api/config`
additionally requires `SQUARE_APPLICATION_ID`; for an environment with the
application id absent and the other two present, health reports `true`
while config reports `false`. -/
theorem health_config_flag_disagreement :
    (∀ e1 e2 : Server.Env, e1.accessToken = e2.accessToken →
        e1.locationId = e2.locationId →
        Server.healthSquareConfigured e1 = Server.healthSquareConfigured e2)
    ∧ (∀ e : Server.Env, Server.configSquareConfigured e = true →
        e.applicationId ≠ "")
    ∧ (∃ e : Server.Env, Server.healthSquareConfigured e = true ∧
        Server.configSquareConfigured e = false) := by
  refine ⟨?_, ?_, ⟨⟨"token", "", "loc"⟩, by decide⟩⟩
  · intro e1 e2 h1 h2
    simp [Server.healthSquareConfigured, h1, h2]
  · intro e h
    simp only [Server.configSquareConfigured, Bool.and_eq_true, decide_eq_true_eq] at h
    exact h.1.2

/-- Witness for `health_config_flag_disagreement` at concrete
environments. -/
theorem health_config_flag_disagreement_witness :
    Server.healthSquareConfigured ⟨"t", "", "L"⟩ =
      Server.healthSquareConfigured ⟨"t", "app", "L"⟩
    ∧ Server.Env.applicationId ⟨"t", "app", "L"⟩ ≠ "" :=
  ⟨health_config_flag_disagreement.1 ⟨"t", "", "L"⟩ ⟨"t", "app", "L"⟩ rfl rfl,
   health_config_flag_disagreement.2.1 ⟨"t", "app", "L"⟩ (by decide)⟩

/-- C4: `POST /api/payment` answers 400 before any network call whenever the
amount is not a positive integer (including absent, `0`, `-100`, and
non-integer amounts) or the effective currency fails `[A-Z]{3}`; and when
validation passes but the Square location id is unconfigured it answers a
500 configuration error, also before any network call (the only constructor
that reaches the network is `callSquare`). -/
theorem payment_validation_before_network :
    (∀ (e : Server.Env) (b : Server.PaymentBody),
        ¬ ((b.amount.getD (.int 0)).isInteger = true ∧
            0 < (b.amount.getD (.int 0)).intVal) →
        (Server.paymentHandler e b).isBadRequest = true)
    ∧ (∀ (e : Server.Env) (b : Server.PaymentBody),
        Server.currencyOk (b.currency.getD "USD") = false →
        (Server.paymentHandler e b).isBadRequest = true)
    ∧ (∀ (e : Server.Env) (b : Server.PaymentBody),
        e.locationId = "" →
        b.sourceId.getD "" ≠ "" →
        (b.amount.getD (.int 0)).isInteger = true →
        0 < (b.amount.getD (.int 0)).intVal →
        Server.currencyOk (b.currency.getD "USD") = true →
        Server.paymentHandler e b =
          .configError "Square payment system is not configured") := by
  refine ⟨?_, ?_, ?_⟩
  · intro e b h
    simp only [Server.paymentHandler]
    by_cases h1 : b.sourceId.getD "" = "" ∨ (b.amount.getD (JsNum.int 0)).truthy = false
    · rw [if_pos h1]; rfl
    · rw [if_neg h1, if_pos h]; rfl
  · intro e b h
    simp only [Server.paymentHandler]
    by_cases h1 : b.sourceId.getD "" = "" ∨ (b.amount.getD (JsNum.int 0)).truthy = false
    · rw [if_pos h1]; rfl
    · rw [if_neg h1]
      by_cases h2 : ¬ ((b.amount.getD (JsNum.int 0)).isInteger = true ∧
          0 < (b.amount.getD (JsNum.int 0)).intVal)
      · rw [if_pos h2]; rfl
      · rw [if_neg h2, if_pos h]; rfl
  · intro e b hloc hsrc hint hpos hcur
    have h1 : ¬ (b.sourceId.getD "" = "" ∨
        (b.amount.getD (JsNum.int 0)).truthy = false) := by
      push_neg
      refine ⟨hsrc, ?_⟩
      rw [JsNum.truthy_of_pos hpos]
      simp
    have h2 : ¬ ¬ ((b.amount.getD (JsNum.int 0)).isInteger = true ∧
        0 < (b.amount.getD (JsNum.int 0)).intVal) := not_not_intro ⟨hint, hpos⟩
    have h3 : ¬ (Server.currencyOk (b.currency.getD "USD") = false) := by
      simp [hcur]
    simp only [Server.paymentHandler]
    rw [if_neg h1, if_neg h2, if_neg h3, if_pos hloc]

/-- Witness for `payment_validation_before_network` at the claim's concrete
inputs: amounts `0`, `-100`, `5/2`; currencies `"US"` and `"usdx"`; and a
missing location id. -/
theorem payment_validation_before_network_witness :
    (Server.paymentHandler ⟨"t", "a", "L"⟩
        ⟨some "src", some (.int 0), none, none⟩).isBadRequest = true
    ∧ (Server.paymentHandler ⟨"t", "a", "L"⟩
        ⟨some "src", some (.int (-100)), none, none⟩).isBadRequest = true
    ∧ (Server.paymentHandler ⟨"t", "a", "L"⟩
        ⟨some "src", some (.nonInt 5 2), none, none⟩).isBadRequest = true
    ∧ (Server.paymentHandler ⟨"t", "a", "L"⟩
        ⟨some "src", some (.int 100), some "US", none⟩).isBadRequest = true
    ∧ (Server.paymentHandler ⟨"t", "a", "L"⟩
        ⟨some "src", some (.int 100), some "usdx", none⟩).isBadRequest = true
    ∧ Server.paymentHandler ⟨"t", "a", ""⟩
        ⟨some "src", some (.int 100), none, none⟩ =
          .configError "Square payment system is not configured" :=
  ⟨payment_validation_before_network.1 _ _ (by decide),
   payment_validation_before_network.1 _ _ (by decide),
   payment_validation_before_network.1 _ _ (by decide),
   payment_validation_before_network.2.1 _ _ (by decide),
   payment_validation_before_network.2.1 _ _ (by decide),
   payment_validation_before_network.2.2 _ _ rfl (by decide) (by decide)
     (by decide) (by decide)⟩

/-- C2: whenever `processPayment` reaches the payment step, the body it
sends to `POST /api/payment` carries exactly the order response's `total`
as `amount` (and its `orderId`); the right-hand side does not mention the
cart, so the amount never comes from the locally recomputed cart total. -/
theorem payment_amount_is_order_total
    (email : String) (cart : List Frontend.CartLine)
    (resp : Frontend.OrderResponse) (t : String)
    (payF : Frontend.Fetch Frontend.PaymentResponse)
    (h1 : email ≠ "") (h2 : Frontend.clientEmailOk email = true) :
    (Frontend.processPayment email cart (.respond resp) (.ok t) payF).paymentRequest
      = some ⟨t, resp.total, resp.orderId⟩ := by
  have h2' : ¬ (Frontend.clientEmailOk email = false) := by simp [h2]
  simp only [Frontend.processPayment]
  rw [if_neg h1, if_neg h2']
  cases payF with
  | netError m => rfl
  | respond p =>
    by_cases hs : p.success = true
    · simp [hs]
    · simp [hs]

/-- Witness for `payment_amount_is_order_total`: the claim's example cart
(photo-2 at 3499 × 3, order total 10497), and a stale cart whose local
total is 300 while the amount sent is still the order's 10497. -/
theorem payment_amount_is_order_total_witness :
    (Frontend.processPayment "a@b.co" [⟨"photo-2", 3499, 3⟩]
        (.respond ⟨true, some 10497, some "oid-1"⟩) (.ok "tok-1")
        (.respond ⟨true, none, none⟩)).paymentRequest
      = some ⟨"tok-1", some 10497, some "oid-1"⟩
    ∧ (Frontend.processPayment "a@b.co" [⟨"photo-2", 100, 3⟩]
        (.respond ⟨true, some 10497, some "oid-1"⟩) (.ok "tok-1")
        (.respond ⟨true, none, none⟩)).paymentRequest
      = some ⟨"tok-1", some 10497, some "oid-1"⟩
    ∧ Frontend.calculateTotal [⟨"photo-2", 100, 3⟩] = 300 :=
  ⟨payment_amount_is_order_total _ _ _ _ _ (by decide) (by decide),
   payment_amount_is_order_total _ _ _ _ _ (by decide) (by decide),
   by decide⟩

/-- Folding addition of `f` over a list starting from `a` is `a` plus the
sum of the mapped list. -/
theorem foldl_add_eq_add_sum {α : Type} (f : α → ℤ) :
    ∀ (l : List α) (a : ℤ), l.foldl (fun s x => s + f x) a = a + (l.map f).sum := by
  intro l
  induction l with
  | nil => intro a; simp
  | cons x xs ih => intro a; simp [ih, add_assoc]

/-- The handler's reduce-based total agrees with the spec-side Σ formula. -/
theorem orderTotal_eq_specOrderTotal (items : List Server.ReqItem) :
    Server.orderTotal items = Server.specOrderTotal items := by
  have h := foldl_add_eq_add_sum
    (fun it : Server.ReqItem => ((Server.catalogPrice it.id).getD 0) * it.quantity.intVal)
    items 0
  simpa [Server.orderTotal, Server.specOrderTotal] using h

/-- The validation loop accepts exactly the lists all of whose items pass
every per-item check. -/
theorem validateItems_eq_none_iff :
    ∀ items : List Server.ReqItem,
      Server.validateItems items = none ↔ ∀ it ∈ items, Server.itemOk it := by
  intro items
  induction items with
  | nil => simp [Server.validateItems]
  | cons item rest ih =>
    by_cases hcond : item.id = "" ∨ item.quantity.truthy = false
    · simp only [Server.validateItems]
      rw [if_pos hcond]
      refine iff_of_false (by simp) ?_
      intro hall
      have hmem := hall item (List.mem_cons_self item rest)
      rcases hcond with h1 | h1
      · exact hmem.1 h1
      · rw [hmem.2.1] at h1
        exact absurd h1 (by simp)
    · by_cases h2 : item.quantity.isInteger = true ∧ 0 < item.quantity.intVal
      · cases hf : Server.products.find? (fun p => p.id = item.id) with
        | none =>
          simp only [Server.validateItems]
          rw [if_neg hcond, if_neg (not_not_intro h2)]
          simp only [hf]
          refine iff_of_false (by simp) ?_
          intro hall
          have h5 := (hall item (List.mem_cons_self item rest)).2.2.2.2
          simp [Server.catalogPrice, hf] at h5
        | some p =>
          simp only [Server.validateItems]
          rw [if_neg hcond, if_neg (not_not_intro h2)]
          simp only [hf]
          rw [ih]
          push_neg at hcond
          constructor
          · intro hall it hin
            rcases List.mem_cons.mp hin with rfl | hin
            · refine ⟨hcond.1, ?_, h2.1, h2.2, by simp [Server.catalogPrice, hf]⟩
              cases htr : it.quantity.truthy with
              | false => exact absurd htr hcond.2
              | true => rfl
            · exact hall it hin
          · intro hall it hin
            exact hall it (List.mem_cons_of_mem _ hin)
      · simp only [Server.validateItems]
        rw [if_neg hcond, if_pos h2]
        refine iff_of_false (by simp) ?_
        intro hall
        have h4 := hall item (List.mem_cons_self item rest)
        exact h2 ⟨h4.2.2.1, h4.2.2.2.1⟩

/-- C1: whenever `POST /api/orders` answers 200, every requested id
resolves in the catalog and the returned `total` is the Σ of catalog
price × quantity over the items — computed from the server catalog alone,
so any client-supplied `price` fields (`clientPrice`) are ignored. -/
theorem orders_total_from_catalog
    (items : List Server.ReqItem) (email? : Option String) (o : Server.OrderOut)
    (h : Server.processOrder (some items) email? = .ok o) :
    (∀ it ∈ items, (Server.catalogPrice it.id).isSome = true)
    ∧ o.total = Server.specOrderTotal items := by
  simp only [Server.processOrder] at h
  by_cases hlen : items.length = 0
  · rw [if_pos hlen] at h
    exact absurd h (by simp)
  · rw [if_neg hlen] at h
    cases hv : Server.validateItems items with
    | some e =>
      simp only [hv] at h
      exact Except.noConfusion h
    | none =>
      simp only [hv] at h
      cases he : Server.validateEmail email? with
      | some e2 =>
        simp only [he] at h
        exact Except.noConfusion h
      | none =>
        simp only [he] at h
        injection h with h
        subst h
        refine ⟨?_, ?_⟩
        · intro it hin
          exact ((validateItems_eq_none_iff items).mp hv it hin).2.2.2.2
        · simpa using orderTotal_eq_specOrderTotal items

/-- Witness for `orders_total_from_catalog`: the claim's example order
(photo-1 × 2 at 2999, photo-3 × 1 at 2499) with junk client-supplied
prices, totalling 8497. -/
theorem orders_total_from_catalog_witness :
    Server.OrderOut.total
        ⟨[⟨"photo-1", .int 2, some 1⟩, ⟨"photo-3", .int 1, some 999999⟩], 8497, none⟩
      = Server.specOrderTotal
          [⟨"photo-1", .int 2, some 1⟩, ⟨"photo-3", .int 1, some 999999⟩]
    ∧ Server.specOrderTotal
        [⟨"photo-1", .int 2, some 1⟩, ⟨"photo-3", .int 1, some 999999⟩] = 8497 :=
  ⟨(orders_total_from_catalog _ none _ (by decide)).2, by decide⟩

/-- A falsy JS number has integer value 0. -/
theorem JsNum.intVal_eq_zero_of_not_truthy {a : JsNum} (h : a.truthy = false) :
    a.intVal = 0 := by
  cases a with
  | int z =>
    simp only [JsNum.truthy, decide_eq_false_iff_not, not_not] at h
    simpa [JsNum.intVal] using h
  | nonInt n d => exact absurd h (by simp [JsNum.truthy])

/-- No catalog product has the empty id. -/
theorem find_empty_id_eq_none :
    Server.products.find? (fun p => p.id = "") = none := by decide

/-- Failure of the per-item checks is exactly: quantity not a positive
integer, or id not resolving in the catalog. -/
theorem not_itemOk_iff (it : Server.ReqItem) :
    ¬ Server.itemOk it ↔
      ((!(it.quantity.isInteger && decide (0 < it.quantity.intVal))) = true
        ∨ (Server.products.find? (fun p => p.id = it.id)).isNone = true) := by
  constructor
  · intro hbad
    by_cases hint : it.quantity.isInteger = true
    · by_cases hpos : 0 < it.quantity.intVal
      · right
        by_cases hid : it.id = ""
        · rw [hid, find_empty_id_eq_none]
          rfl
        · have htr : it.quantity.truthy = true := JsNum.truthy_of_pos hpos
          by_cases hsome : (Server.catalogPrice it.id).isSome = true
          · exact absurd ⟨hid, htr, hint, hpos, hsome⟩ hbad
          · cases hfind : Server.products.find? (fun p => p.id = it.id) with
            | none => simp [hfind]
            | some p => exact absurd (by simp [Server.catalogPrice, hfind]) hsome
      · left
        simp [hint, hpos]
    · left
      simp [hint]
  · rintro (hb | hb) hok
    · rw [hok.2.2.1] at hb
      simp only [Bool.true_and, Bool.not_eq_true', decide_eq_false_iff_not] at hb
      exact hb hok.2.2.2.1
    · have h5 := hok.2.2.2.2
      have hb' : Server.products.find? (fun p => p.id = it.id) = none :=
        Option.isNone_iff_eq_none.mp hb
      simp [Server.catalogPrice, hb'] at h5

/-- If a prefix passes the validation loop, validating the concatenation
continues with the suffix. -/
theorem validateItems_append_none :
    ∀ (pre l : List Server.ReqItem), Server.validateItems pre = none →
      Server.validateItems (pre ++ l) = Server.validateItems l := by
  intro pre
  induction pre with
  | nil => intro l _; rfl
  | cons x pre ih =>
    intro l h
    by_cases hc1 : x.id = "" ∨ x.quantity.truthy = false
    · simp only [Server.validateItems] at h
      rw [if_pos hc1] at h
      exact Option.noConfusion h
    · by_cases hc2 : x.quantity.isInteger = true ∧ 0 < x.quantity.intVal
      · cases hf : Server.products.find? (fun p => p.id = x.id) with
        | none =>
          simp only [Server.validateItems] at h
          rw [if_neg hc1, if_neg (not_not_intro hc2)] at h
          simp only [hf] at h
          exact Option.noConfusion h
        | some p =>
          have hpre : Server.validateItems pre = none := by
            simp only [Server.validateItems] at h
            rw [if_neg hc1, if_neg (not_not_intro hc2)] at h
            simpa only [hf] using h
          show Server.validateItems (x :: (pre ++ l)) = _
          simp only [Server.validateItems]
          rw [if_neg hc1, if_neg (not_not_intro hc2)]
          simp only [hf]
          exact ih l hpre
      · simp only [Server.validateItems] at h
        rw [if_neg hc1, if_pos hc2] at h
        exact Option.noConfusion h

/-- C5: `POST /api/orders` answers 400 exactly when validation fails —
items missing or empty, some quantity not a positive integer, some id not
resolving in the catalog, or a supplied (truthy) email failing the grammar
or longer than 254 characters; moreover when the first failing item is an
unknown id, the error message names that id. -/
theorem orders_validation_iff :
    (∀ email? : Option String, Server.isErr (Server.processOrder none email?) = true)
    ∧ (∀ (items : List Server.ReqItem) (email? : Option String),
        Server.isErr (Server.processOrder (some items) email?) = true ↔
          (items.isEmpty = true
            ∨ items.any (fun it =>
                !(it.quantity.isInteger && decide (0 < it.quantity.intVal))) = true
            ∨ items.any (fun it =>
                (Server.products.find? (fun p => p.id = it.id)).isNone) = true
            ∨ Server.emailRejected email? = true))
    ∧ (∀ (pre : List Server.ReqItem) (item : Server.ReqItem)
          (rest : List Server.ReqItem) (email? : Option String),
        Server.validateItems pre = none →
        item.id ≠ "" → item.quantity.truthy = true →
        item.quantity.isInteger = true → 0 < item.quantity.intVal →
        Server.products.find? (fun p => p.id = item.id) = none →
        Server.processOrder (some (pre ++ item :: rest)) email? =
          .error ("Product not found: " ++ item.id)) := by
  refine ⟨fun email? => rfl, ?_, ?_⟩
  · intro items email?
    have hmain : Server.isErr (Server.processOrder (some items) email?) = true ↔
        (items.length = 0 ∨ Server.validateItems items ≠ none ∨
          Server.validateEmail email? ≠ none) := by
      simp only [Server.processOrder]
      by_cases hlen : items.length = 0
      · rw [if_pos hlen]
        simp [Server.isErr, hlen]
      · rw [if_neg hlen]
        cases hv : Server.validateItems items with
        | some e => simp [Server.isErr, hlen, hv]
        | none =>
          cases he : Server.validateEmail email? with
          | some e2 => simp [Server.isErr, hlen, hv, he]
          | none => simp [Server.isErr, hlen, hv, he]
    have h1 : items.length = 0 ↔ items.isEmpty = true := by
      simp [List.length_eq_zero, List.isEmpty_iff]
    have h2 : (Server.validateItems items ≠ none) ↔
        (items.any (fun it =>
            !(it.quantity.isInteger && decide (0 < it.quantity.intVal))) = true
          ∨ items.any (fun it =>
              (Server.products.find? (fun p => p.id = it.id)).isNone) = true) := by
      rw [Ne, validateItems_eq_none_iff items]
      push_neg
      constructor
      · rintro ⟨it, hin, hbad⟩
        rcases (not_itemOk_iff it).mp hbad with hb | hb
        · exact Or.inl (List.any_eq_true.mpr ⟨it, hin, hb⟩)
        · exact Or.inr (List.any_eq_true.mpr ⟨it, hin, hb⟩)
      · rintro (hany | hany)
        · obtain ⟨it, hin, hb⟩ := List.any_eq_true.mp hany
          exact ⟨it, hin, (not_itemOk_iff it).mpr (Or.inl hb)⟩
        · obtain ⟨it, hin, hb⟩ := List.any_eq_true.mp hany
          exact ⟨it, hin, (not_itemOk_iff it).mpr (Or.inr hb)⟩
    have h3 : (Server.validateEmail email? ≠ none) ↔
        Server.emailRejected email? = true := by
      cases email? with
      | none => simp [Server.validateEmail, Server.emailRejected]
      | some e =>
        by_cases he : e = ""
        · simp [Server.validateEmail, Server.emailRejected, he]
        · by_cases hr : Server.emailRegexTest e = false ∨ e.toList.length > 254
          · simp only [Server.validateEmail, Server.emailRejected, if_neg he]
            rw [if_pos hr]
            simp only [ne_eq, reduceCtorEq, not_false_eq_true, true_iff, he,
              decide_eq_true_eq, Bool.and_eq_true, Bool.or_eq_true,
              Bool.not_eq_true', decide_eq_true_eq]
            constructor
            · decide
            · rcases hr with hr | hr
              · exact Or.inl hr
              · exact Or.inr (by omega)
          · simp only [Server.validateEmail, Server.emailRejected, if_neg he]
            rw [if_neg hr]
            push_neg at hr
            simp only [ne_eq, not_true_eq_false, false_iff, Bool.and_eq_true,
              Bool.or_eq_true, Bool.not_eq_true', decide_eq_true_eq, not_and, not_or]
            intro _
            exact ⟨hr.1, by omega⟩
    rw [hmain, h1, h2, h3]
    tauto
  · intro pre item rest email? hpre hid htr hint hpos hf
    have hcond : ¬ (item.id = "" ∨ item.quantity.truthy = false) := by
      push_neg
      exact ⟨hid, by rw [htr]; simp⟩
    have hv : Server.validateItems (pre ++ item :: rest) =
        some ("Product not found: " ++ item.id) := by
      rw [validateItems_append_none pre (item :: rest) hpre]
      simp only [Server.validateItems]
      rw [if_neg hcond, if_neg (not_not_intro ⟨hint, hpos⟩)]
      simp only [hf]
    have hlen : ¬ ((pre ++ item :: rest).length = 0) := by simp
    simp only [Server.processOrder]
    rw [if_neg hlen]
    simp only [hv]

/-- Witness for `orders_validation_iff`: missing items; a cart line with
`quantity = 0` (rejected); the unknown id `photo-99` rejected with a 400
naming it; and a valid single-item order accepted. -/
theorem orders_validation_iff_witness :
    Server.isErr (Server.processOrder none none) = true
    ∧ Server.isErr (Server.processOrder
        (some [⟨"photo-1", .int 0, none⟩]) none) = true
    ∧ Server.processOrder (some ([] ++ ⟨"photo-99", .int 1, none⟩ :: [])) none
        = .error ("Product not found: " ++ "photo-99")
    ∧ Server.isErr (Server.processOrder
        (some [⟨"photo-1", .int 1, none⟩]) none) = false :=
  ⟨orders_validation_iff.1 none,
   (orders_validation_iff.2.1 [⟨"photo-1", .int 0, none⟩] none).mpr (by decide),
   orders_validation_iff.2.2 [] ⟨"photo-99", .int 1, none⟩ [] none rfl
     (by decide) (by decide) (by decide) (by decide) (by decide),
   by decide⟩

/-- C3 (code slip): `processPayment` does not check `orderResponse.ok`, so
when `POST /api/orders` answers a non-success response (a 400 `{error}`
body, here `httpOk = false` with no `total`/`orderId`), the card is still
tokenized and a payment request is still issued — with no `amount` field —
contradicting the documented "any step's failure aborts the sequence".
Evaluated at the failing input; the server then rejects the amount-less
request, and the orchestrator ends back in the checkout view with an inline
error and the submit control re-enabled. -/
theorem processPayment_tokenizes_after_failed_order :
    Frontend.processPayment "a@b.co" [⟨"photo-1", 2999, 1⟩]
        (.respond ⟨false, none, none⟩) (.ok "tok-1")
        (.respond ⟨false, some "Missing required payment information", none⟩) =
      ⟨some [⟨"photo-1", 1⟩], true, some ⟨"tok-1", none, none⟩,
        .errorShown "Payment failed: Missing required payment information",
        true⟩ := by
  decide

/-- `initializeCard` increments both counters by one and touches neither
`sp` nor `ctorCalled`. -/
theorem initializeCard_counters (s : Frontend.WidgetState) (o : Frontend.InitOutcome) :
    (Frontend.initializeCard s o).1.initCalls = s.initCalls + 1
    ∧ (Frontend.initializeCard s o).1.cardInitAttempts = s.cardInitAttempts + 1
    ∧ (Frontend.initializeCard s o).1.sp = s.sp
    ∧ (Frontend.initializeCard s o).1.ctorCalled = s.ctorCalled := by
  cases o <;> simp [Frontend.initializeCard]

/-- One checkout entry preserves "initCalls = cardInitAttempts ≤ 3". -/
theorem showCheckout_invariant (s : Frontend.WidgetState) (o : Frontend.InitOutcome)
    (r : Bool) (h1 : s.initCalls = s.cardInitAttempts) (h2 : s.cardInitAttempts ≤ 3) :
    (Frontend.showCheckout s o r).1.initCalls
      = (Frontend.showCheckout s o r).1.cardInitAttempts
    ∧ (Frontend.showCheckout s o r).1.cardInitAttempts ≤ 3 := by
  have hMAX : Frontend.MAX_CARD_INIT_ATTEMPTS = 3 := rfl
  simp only [Frontend.showCheckout]
  by_cases hb1 : s.sp = true ∧ s.card = Frontend.CardSt.noCard
  · rw [if_pos hb1]
    by_cases hlt : s.cardInitAttempts < Frontend.MAX_CARD_INIT_ATTEMPTS
    · rw [if_pos hlt]
      have hc := initializeCard_counters s o
      rw [hMAX] at hlt
      refine ⟨?_, ?_⟩ <;> simp only [hc.1, hc.2.1, h1] <;> omega
    · rw [if_neg hlt]
      exact ⟨h1, h2⟩
  · rw [if_neg hb1]
    by_cases hb2 : s.card ≠ Frontend.CardSt.noCard
    · rw [if_pos hb2]
      cases r with
      | true => simpa using ⟨h1, h2⟩
      | false =>
        rw [if_neg (by simp : ¬ ((false : Bool) = true))]
        by_cases hlt : s.cardInitAttempts < Frontend.MAX_CARD_INIT_ATTEMPTS
        · rw [if_pos hlt]
          have hc := initializeCard_counters { s with card := Frontend.CardSt.noCard } o
          rw [hMAX] at hlt
          refine ⟨?_, ?_⟩ <;> simp [hc.1, hc.2.1] <;> omega
        · rw [if_neg hlt]
          exact ⟨h1, h2⟩
    · rw [if_neg hb2]
      exact ⟨h1, h2⟩

/-- A checkout-event fold preserves "initCalls = cardInitAttempts ≤ 3". -/
theorem runCheckouts_invariant :
    ∀ (evs : List (Frontend.InitOutcome × Bool)) (s : Frontend.WidgetState),
      s.initCalls = s.cardInitAttempts → s.cardInitAttempts ≤ 3 →
      (Frontend.runCheckouts s evs).initCalls
        = (Frontend.runCheckouts s evs).cardInitAttempts
      ∧ (Frontend.runCheckouts s evs).cardInitAttempts ≤ 3 := by
  intro evs
  induction evs with
  | nil => intro s h1 h2; exact ⟨h1, h2⟩
  | cons ev evs ih =>
    intro s h1 h2
    have h := showCheckout_invariant s ev.1 ev.2 h1 h2
    exact ih _ h.1 h.2

/-- App startup establishes "initCalls = cardInitAttempts ≤ 3". -/
theorem initApp_invariant (cfg : Server.ConfigOut) (sdk ctorOk : Bool)
    (o : Frontend.InitOutcome) :
    (Frontend.initApp cfg sdk ctorOk o).1.initCalls
      = (Frontend.initApp cfg sdk ctorOk o).1.cardInitAttempts
    ∧ (Frontend.initApp cfg sdk ctorOk o).1.cardInitAttempts ≤ 3 := by
  simp only [Frontend.initApp]
  by_cases hsdk : sdk = false
  · rw [if_pos hsdk]; exact ⟨rfl, by decide⟩
  · rw [if_neg hsdk]
    cases hconf : cfg.squareConfigured with
    | false => simp
    | true =>
      simp only [if_true]
      by_cases hids : cfg.squareApplicationId = "" ∨ cfg.squareLocationId = ""
      · rw [if_pos hids]; exact ⟨rfl, by decide⟩
      · rw [if_neg hids]
        by_cases hctor : ctorOk = false
        · rw [if_pos hctor]; exact ⟨rfl, by decide⟩
        · rw [if_neg hctor]
          have hc := initializeCard_counters
            ⟨0, Frontend.CardSt.noCard, true, true, 0⟩ o
          refine ⟨?_, ?_⟩ <;> simp [hc.1, hc.2.1] <;> omega

/-- C6: widget initialization runs at most 3 times in total over any run
(startup plus any sequence of checkout entries); once the attempt counter
has reached 3, re-entering checkout runs no further initialization and — if
the widget is still absent — shows the terminal "Unable to initialize"
message; and after a single failed startup attempt, the next checkout entry
automatically retries initialization. -/
theorem card_init_attempt_bound :
    (∀ (cfg : Server.ConfigOut) (sdk ctorOk : Bool) (o : Frontend.InitOutcome)
        (evs : List (Frontend.InitOutcome × Bool)),
        (Frontend.runCheckouts (Frontend.initApp cfg sdk ctorOk o).1 evs).initCalls ≤ 3)
    ∧ (∀ (s : Frontend.WidgetState) (o : Frontend.InitOutcome) (r : Bool),
        3 ≤ s.cardInitAttempts →
        (Frontend.showCheckout s o r).1.initCalls = s.initCalls)
    ∧ (∀ (s : Frontend.WidgetState) (o : Frontend.InitOutcome) (r : Bool),
        3 ≤ s.cardInitAttempts → s.sp = true → s.card = Frontend.CardSt.noCard →
        (Frontend.showCheckout s o r).2 =
          some "Unable to initialize payment form. Please refresh the page and try again.")
    ∧ (∀ (cfg : Server.ConfigOut) (o : Frontend.InitOutcome) (r : Bool),
        cfg.squareConfigured = true → cfg.squareApplicationId ≠ "" →
        cfg.squareLocationId ≠ "" →
        (Frontend.showCheckout (Frontend.initApp cfg true true .createFail).1 o r).1.initCalls
          = 2) := by
  refine ⟨?_, ?_, ?_, ?_⟩
  · intro cfg sdk ctorOk o evs
    have h0 := initApp_invariant cfg sdk ctorOk o
    have h := runCheckouts_invariant evs _ h0.1 h0.2
    rw [h.1]
    exact h.2
  · intro s o r h3
    have hnlt : ¬ (s.cardInitAttempts < Frontend.MAX_CARD_INIT_ATTEMPTS) := by
      have : Frontend.MAX_CARD_INIT_ATTEMPTS = 3 := rfl
      omega
    simp only [Frontend.showCheckout]
    by_cases hb1 : s.sp = true ∧ s.card = Frontend.CardSt.noCard
    · rw [if_pos hb1, if_neg hnlt]
    · rw [if_neg hb1]
      by_cases hb2 : s.card ≠ Frontend.CardSt.noCard
      · rw [if_pos hb2]
        cases r with
        | true => simp
        | false => simp only [Bool.false_eq_true, if_false, if_neg hnlt]
      · rw [if_neg hb2]
  · intro s o r h3 hsp hcard
    have hnlt : ¬ (s.cardInitAttempts < Frontend.MAX_CARD_INIT_ATTEMPTS) := by
      have : Frontend.MAX_CARD_INIT_ATTEMPTS = 3 := rfl
      omega
    simp only [Frontend.showCheckout]
    rw [if_pos ⟨hsp, hcard⟩, if_neg hnlt]
  · intro cfg o r hconf happ hloc
    have hstate : (Frontend.initApp cfg true true .createFail).1 =
        ⟨1, Frontend.CardSt.noCard, true, true, 1⟩ := by
      simp [Frontend.initApp, hconf, happ, hloc, Frontend.initializeCard]
    rw [hstate]
    cases o <;> rfl

/-- Witness for `card_init_attempt_bound`: three failing attempts stay at
the bound; at attempts = 3 a further checkout entry with no widget keeps
`initCalls` at 3 and shows the terminal message; after one failed startup
attempt a checkout entry brings `initCalls` to 2. -/
theorem card_init_attempt_bound_witness :
    (Frontend.runCheckouts
        (Frontend.initApp ⟨"app", "loc", true⟩ true true .createFail).1
        [(.createFail, true), (.createFail, true), (.createFail, true)]).initCalls ≤ 3
    ∧ (Frontend.showCheckout ⟨3, .noCard, true, true, 3⟩ .success true).1.initCalls = 3
    ∧ (Frontend.showCheckout ⟨3, .noCard, true, true, 3⟩ .success true).2 =
        some "Unable to initialize payment form. Please refresh the page and try again."
    ∧ (Frontend.showCheckout
        (Frontend.initApp ⟨"app", "loc", true⟩ true true .createFail).1
        .createFail true).1.initCalls = 2 :=
  ⟨card_init_attempt_bound.1 ⟨"app", "loc", true⟩ true true .createFail
      [(.createFail, true), (.createFail, true), (.createFail, true)],
   card_init_attempt_bound.2.1 ⟨3, .noCard, true, true, 3⟩ .success true (by decide),
   card_init_attempt_bound.2.2.1 ⟨3, .noCard, true, true, 3⟩ .success true
     (by decide) rfl rfl,
   card_init_attempt_bound.2.2.2 ⟨"app", "loc", true⟩ .createFail true rfl
     (by decide) (by decide)⟩

/-- C7: on gateway success `showSuccess` unconditionally clears the cart
and displays the returned order id; a receipt link is rendered iff the
receipt URL is present, parses, uses http/https, and its lowercased
hostname is exactly a Square domain or a subdomain of one. -/
theorem success_view_clears_cart_and_gates_receipt
    (cart : List Frontend.CartLine) (orderId : Option String)
    (receiptUrl : Option String) (parseURL : String → Option Frontend.URLParts)
    (hparse : parseURL "" = none) :
    (Frontend.showSuccess cart orderId receiptUrl parseURL).1 = []
    ∧ (Frontend.showSuccess cart orderId receiptUrl parseURL).2.orderIdShown = orderId
    ∧ ((Frontend.showSuccess cart orderId receiptUrl parseURL).2.receiptLinkShown = true ↔
        ∃ u parts, receiptUrl = some u ∧ parseURL u = some parts ∧
          (parts.protocol = "https:" ∨ parts.protocol = "http:") ∧
          Frontend.isValidSquareDomain (parts.hostname.toList.map Char.toLower) = true) := by
  refine ⟨rfl, rfl, ?_⟩
  cases receiptUrl with
  | none => simp [Frontend.showSuccess]
  | some u =>
    by_cases hu : u = ""
    · subst hu
      simp [Frontend.showSuccess, hparse]
    · cases hpu : parseURL u with
      | none => simp [Frontend.showSuccess, hu, hpu]
      | some parts =>
        simp only [Frontend.showSuccess, if_neg hu, hpu, Option.some.injEq,
          Bool.and_eq_true, Bool.or_eq_true, decide_eq_true_eq]
        constructor
        · rintro ⟨hdom, hproto⟩
          exact ⟨u, parts, rfl, hpu, hproto, hdom⟩
        · rintro ⟨u', parts', rfl, hp', hproto, hdom⟩
          rw [hpu] at hp'
          injection hp' with h
          subst h
          exact ⟨hdom, hproto⟩

/-- Witness for `success_view_clears_cart_and_gates_receipt` at a concrete
cart, order id and Square receipt URL parsed by `sampleParseURL`. -/
theorem success_view_clears_cart_and_gates_receipt_witness :
    (Frontend.showSuccess [⟨"photo-1", 2999, 1⟩] (some "oid-1")
        (some "https://squareup.com/receipt/abc") Frontend.sampleParseURL).1 = []
    ∧ (Frontend.showSuccess [⟨"photo-1", 2999, 1⟩] (some "oid-1")
        (some "https://squareup.com/receipt/abc") Frontend.sampleParseURL).2.orderIdShown
      = some "oid-1"
    ∧ (Frontend.showSuccess [⟨"photo-1", 2999, 1⟩] (some "oid-1")
        (some "https://squareup.com/receipt/abc") Frontend.sampleParseURL).2.receiptLinkShown
      = true :=
  ⟨(success_view_clears_cart_and_gates_receipt _ _ _ _ (by decide)).1,
   (success_view_clears_cart_and_gates_receipt [⟨"photo-1", 2999, 1⟩] (some "oid-1")
      (some "https://squareup.com/receipt/abc") Frontend.sampleParseURL (by decide)).2.1,
   (success_view_clears_cart_and_gates_receipt _ _ _ _ (by decide)).2.2.mpr
     ⟨"https://squareup.com/receipt/abc", ⟨"https:", "squareup.com"⟩, rfl, by decide,
      Or.inl rfl, by decide⟩⟩

/-- A widget state with no `squarePayments` and no card is left untouched
by a checkout entry, and nothing is shown. -/
theorem showCheckout_inert (s : Frontend.WidgetState) (o : Frontend.InitOutcome)
    (r : Bool) (hsp : s.sp = false) (hcard : s.card = Frontend.CardSt.noCard) :
    Frontend.showCheckout s o r = (s, none) := by
  simp only [Frontend.showCheckout]
  rw [if_neg (by rintro ⟨h, _⟩; rw [hsp] at h; exact Bool.noConfusion h),
    if_neg (not_not_intro hcard)]

/-- Folding checkout entries over an inert widget state changes nothing. -/
theorem runCheckouts_inert :
    ∀ (evs : List (Frontend.InitOutcome × Bool)) (s : Frontend.WidgetState),
      s.sp = false → s.card = Frontend.CardSt.noCard →
      Frontend.runCheckouts s evs = s := by
  intro evs
  induction evs with
  | nil => intro s _ _; rfl
  | cons ev evs ih =>
    intro s hsp hcard
    show Frontend.runCheckouts (Frontend.showCheckout s ev.1 ev.2).1 evs = s
    rw [showCheckout_inert s ev.1 ev.2 hsp hcard]
    exact ih s hsp hcard

/-- With `squareConfigured=false` or a missing id, `init` ends in the
pristine widget state: no constructor call, no initialization, no card. -/
theorem initApp_unconfigured (cfg : Server.ConfigOut) (sdk ctorOk : Bool)
    (o : Frontend.InitOutcome)
    (h : cfg.squareConfigured = false ∨ cfg.squareApplicationId = ""
        ∨ cfg.squareLocationId = "") :
    (Frontend.initApp cfg sdk ctorOk o).1 =
      ⟨0, Frontend.CardSt.noCard, false, false, 0⟩ := by
  simp only [Frontend.initApp]
  by_cases hsdk : sdk = false
  · rw [if_pos hsdk]
  · rw [if_neg hsdk]
    cases hconf : cfg.squareConfigured with
    | false => simp
    | true =>
      simp only [if_true]
      have hids : cfg.squareApplicationId = "" ∨ cfg.squareLocationId = "" := by
        rcases h with h | h | h
        · rw [h] at hconf; exact Bool.noConfusion hconf
        · exact Or.inl h
        · exact Or.inr h
      rw [if_pos hids]

/-- C8 (amended): with `squareConfigured=false` or a missing
application/location id, the orchestrator never invokes `Square.payments`
or card initialization — at load and across every later checkout entry;
the visible explanatory message is shown (only) in the case where
`squareConfigured` is true but an id is missing. -/
theorem unconfigured_suppresses_widget_init :
    (∀ (cfg : Server.ConfigOut) (sdk ctorOk : Bool) (o : Frontend.InitOutcome)
        (evs : List (Frontend.InitOutcome × Bool)),
        (cfg.squareConfigured = false ∨ cfg.squareApplicationId = ""
          ∨ cfg.squareLocationId = "") →
        (Frontend.runCheckouts (Frontend.initApp cfg sdk ctorOk o).1 evs).ctorCalled = false
        ∧ (Frontend.runCheckouts (Frontend.initApp cfg sdk ctorOk o).1 evs).initCalls = 0)
    ∧ (∀ (cfg : Server.ConfigOut) (ctorOk : Bool) (o : Frontend.InitOutcome),
        cfg.squareConfigured = true →
        (cfg.squareApplicationId = "" ∨ cfg.squareLocationId = "") →
        (Frontend.initApp cfg true ctorOk o).2 =
          some "Payment system is not properly configured. Please contact support.") := by
  constructor
  · intro cfg sdk ctorOk o evs h
    rw [initApp_unconfigured cfg sdk ctorOk o h, runCheckouts_inert evs _ rfl rfl]
    exact ⟨rfl, rfl⟩
  · intro cfg ctorOk o hconf hids
    simp only [Frontend.initApp]
    rw [if_neg (by simp : ¬ ((true : Bool) = false)), hconf, if_pos rfl, if_pos hids]

/-- Counterexample to C8 as stated: with `squareConfigured=false` (and sdk
loaded) the orchestrator shows no explanatory message — neither at init nor
on entering checkout — even though the payment form is non-functional. -/
theorem unconfigured_init_shows_no_message :
    (Frontend.initApp ⟨"", "", false⟩ true true .success).2 = none
    ∧ (Frontend.showCheckout (Frontend.initApp ⟨"", "", false⟩ true true .success).1
        .success true).2 = none := by
  decide

/-- Witness for `unconfigured_suppresses_widget_init` at
`squareConfigured=false` (suppression across a checkout entry) and at a
configured flag with missing application id (the visible message). -/
theorem unconfigured_suppresses_widget_init_witness :
    (Frontend.runCheckouts (Frontend.initApp ⟨"", "", false⟩ true true .success).1
        [(.success, true)]).ctorCalled = false
    ∧ (Frontend.runCheckouts (Frontend.initApp ⟨"", "", false⟩ true true .success).1
        [(.success, true)]).initCalls = 0
    ∧ (Frontend.initApp ⟨"", "loc", true⟩ true true .success).2 =
        some "Payment system is not properly configured. Please contact support." :=
  ⟨(unconfigured_suppresses_widget_init.1 ⟨"", "", false⟩ true true .success
      [(.success, true)] (Or.inl rfl)).1,
   (unconfigured_suppresses_widget_init.1 ⟨"", "", false⟩ true true .success
      [(.success, true)] (Or.inl rfl)).2,
   unconfigured_suppresses_widget_init.2 ⟨"", "loc", true⟩ true .success rfl
     (Or.inl rfl)⟩

/-- Incrementing the first matching line preserves positivity of all
quantities. -/
theorem incFirstQuantity_pos :
    ∀ (cart : List Frontend.CartLine) (pid : String),
      (∀ x ∈ cart, 0 < x.quantity) →
      ∀ x ∈ Frontend.incFirstQuantity cart pid, 0 < x.quantity := by
  intro cart
  induction cart with
  | nil => intro pid _ x hx; simp [Frontend.incFirstQuantity] at hx
  | cons l ls ih =>
    intro pid hinv x hx
    simp only [Frontend.incFirstQuantity] at hx
    by_cases hl : l.id = pid
    · rw [if_pos hl] at hx
      rcases List.mem_cons.mp hx with rfl | hx
      · have hp := hinv l (List.mem_cons_self l ls)
        show 0 < l.quantity + 1
        omega
      · exact hinv x (List.mem_cons_of_mem _ hx)
    · rw [if_neg hl] at hx
      rcases List.mem_cons.mp hx with rfl | hx
      · exact hinv _ (List.mem_cons_self _ _)
      · exact ih pid (fun y hy => hinv y (List.mem_cons_of_mem _ hy)) x hx

/-- Setting the first matching line to a positive quantity preserves
positivity of all quantities. -/
theorem setFirstQuantity_pos :
    ∀ (cart : List Frontend.CartLine) (pid : String) (q : ℤ), 0 < q →
      (∀ x ∈ cart, 0 < x.quantity) →
      ∀ x ∈ Frontend.setFirstQuantity cart pid q, 0 < x.quantity := by
  intro cart
  induction cart with
  | nil => intro pid q _ _ x hx; simp [Frontend.setFirstQuantity] at hx
  | cons l ls ih =>
    intro pid q hq hinv x hx
    simp only [Frontend.setFirstQuantity] at hx
    by_cases hl : l.id = pid
    · rw [if_pos hl] at hx
      rcases List.mem_cons.mp hx with rfl | hx
      · exact hq
      · exact hinv x (List.mem_cons_of_mem _ hx)
    · rw [if_neg hl] at hx
      rcases List.mem_cons.mp hx with rfl | hx
      · exact hinv _ (List.mem_cons_self _ _)
      · exact ih pid q hq (fun y hy => hinv y (List.mem_cons_of_mem _ hy)) x hx

/-- One cart operation preserves positivity of all quantities. -/
theorem applyOp_pos (prods : List Server.Product) (cart : List Frontend.CartLine)
    (op : Frontend.CartOp) (hinv : ∀ x ∈ cart, 0 < x.quantity) :
    ∀ x ∈ Frontend.applyOp prods cart op, 0 < x.quantity := by
  cases op with
  | add pid =>
    show ∀ x ∈ Frontend.addToCart prods cart pid, 0 < x.quantity
    cases hf : prods.find? (fun p => p.id = pid) with
    | none =>
      rw [Frontend.addToCart.eq_def, hf]
      exact hinv
    | some p =>
      rw [Frontend.addToCart.eq_def, hf]
      by_cases hany : (cart.any fun l => l.id = pid) = true
      · simp only [hany, if_true]
        exact incFirstQuantity_pos cart pid hinv
      · simp only [Bool.not_eq_true] at hany
        simp only [hany, Bool.false_eq_true, if_false]
        intro x hx
        rcases List.mem_append.mp hx with hx | hx
        · exact hinv x hx
        · rcases List.mem_singleton.mp hx with rfl
          show (0 : ℤ) < 1
          omega
  | remove pid =>
    intro x hx
    exact hinv x (List.mem_of_mem_filter hx)
  | setQuantity pid change =>
    show ∀ x ∈ Frontend.updateQuantity cart pid change, 0 < x.quantity
    cases hf : cart.find? (fun l => l.id = pid) with
    | none =>
      rw [Frontend.updateQuantity.eq_def, hf]
      exact hinv
    | some item =>
      rw [Frontend.updateQuantity.eq_def, hf]
      by_cases hle : item.quantity + change ≤ 0
      · simp only [if_pos hle]
        intro x hx
        exact hinv x (List.mem_of_mem_filter hx)
      · simp only [if_neg hle]
        exact setFirstQuantity_pos cart pid _ (by omega) hinv

/-- Folding cart operations preserves positivity of all quantities. -/
theorem foldl_applyOp_pos :
    ∀ (ops : List Frontend.CartOp) (prods : List Server.Product)
      (cart : List Frontend.CartLine),
      (∀ x ∈ cart, 0 < x.quantity) →
      ∀ x ∈ ops.foldl (Frontend.applyOp prods) cart, 0 < x.quantity := by
  intro ops
  induction ops with
  | nil => intro prods cart hinv; exact hinv
  | cons op ops ih =>
    intro prods cart hinv
    exact ih prods _ (applyOp_pos prods cart op hinv)

/-- C9: every cart reachable from the empty cart by add/remove/setQuantity
operations has only positive integer quantities; `calculateTotal` is the
Σ of price × quantity over the lines; adding an unknown product id is a
no-op; and driving a line's quantity to ≤ 0 removes the line. -/
theorem cart_operations_invariant :
    (∀ (prods : List Server.Product) (ops : List Frontend.CartOp),
        ∀ l ∈ Frontend.runOps prods ops, 0 < l.quantity)
    ∧ (∀ cart : List Frontend.CartLine,
        Frontend.calculateTotal cart = (cart.map fun l => l.price * l.quantity).sum)
    ∧ (∀ (prods : List Server.Product) (cart : List Frontend.CartLine) (pid : String),
        prods.find? (fun p => p.id = pid) = none →
        Frontend.addToCart prods cart pid = cart)
    ∧ (∀ (cart : List Frontend.CartLine) (pid : String) (change : ℤ)
          (item : Frontend.CartLine),
        cart.find? (fun l => l.id = pid) = some item →
        item.quantity + change ≤ 0 →
        Frontend.updateQuantity cart pid change = Frontend.removeFromCart cart pid) := by
  refine ⟨?_, ?_, ?_, ?_⟩
  · intro prods ops
    exact foldl_applyOp_pos ops prods [] (by intro x hx; simp at hx)
  · intro cart
    have h := foldl_add_eq_add_sum (fun l : Frontend.CartLine => l.price * l.quantity)
      cart 0
    simpa [Frontend.calculateTotal] using h
  · intro prods cart pid hf
    simp [Frontend.addToCart, hf]
  · intro cart pid change item hf hle
    rw [Frontend.updateQuantity.eq_def, hf]
    simp only [if_pos hle]

/-- Witness for `cart_operations_invariant`: a concrete operation sequence
(two adds of photo-1, an add of photo-2, a quantity drop removing photo-1,
an unknown-id add) whose surviving line has positive quantity; the total of
a concrete cart; a no-op unknown add; and a removing `setQuantity`. -/
theorem cart_operations_invariant_witness :
    (0 : ℤ) < (Frontend.CartLine.mk "photo-2" 3499 1).quantity
    ∧ Frontend.calculateTotal [⟨"photo-2", 3499, 3⟩] =
        (([⟨"photo-2", 3499, 3⟩] : List Frontend.CartLine).map
          fun l => l.price * l.quantity).sum
    ∧ Frontend.addToCart Server.products [⟨"photo-1", 2999, 1⟩] "photo-99" =
        [⟨"photo-1", 2999, 1⟩]
    ∧ Frontend.updateQuantity [⟨"photo-1", 2999, 1⟩] "photo-1" (-5) =
        Frontend.removeFromCart [⟨"photo-1", 2999, 1⟩] "photo-1" :=
  ⟨cart_operations_invariant.1 Server.products
      [.add "photo-1", .add "photo-1", .add "photo-2",
        .setQuantity "photo-1" (-5), .add "photo-99"]
      ⟨"photo-2", 3499, 1⟩ (by decide),
   cart_operations_invariant.2.1 [⟨"photo-2", 3499, 3⟩],
   cart_operations_invariant.2.2.1 Server.products [⟨"photo-1", 2999, 1⟩] "photo-99"
     (by decide),
   cart_operations_invariant.2.2.2 [⟨"photo-1", 2999, 1⟩] "photo-1" (-5)
     ⟨"photo-1", 2999, 1⟩ (by decide) (by decide)⟩
